import Mathlib

/-!
Verification of `src/vs/platform/list/browser/listService.ts`.

The module glues list/tree widgets into the workbench: it tracks the last
focused widget in a `ListService`, binds selection/focus state into context
keys, applies user configuration (multi-select modifier, open mode, tree
indentation, keyboard navigation style) to widget instances, and normalizes
mouse/keyboard open-resource events into a single navigation event.

The embedding below models the relevant configuration values, browser
events, and each handler of the TypeScript source as pure functions on
explicit state.
-/

/-- The configuration values this module reads. `getValue` on a string
setting may yield `undefined`, modelled as `none`. `workbench.tree.indent`
is a number setting (registered with a default), modelled as `Nat`. -/
structure ConfigState where
  multiSelectModifier : Option String
  openMode : Option String
  keyboardNavigation : Option String
  treeIndent : Nat
deriving DecidableEq

/-- `useAltAsMultipleSelectionModifier`: the configured
`workbench.list.multiSelectModifier` strictly equals `'alt'`. -/
def useAltAsMultipleSelectionModifier (cfg : ConfigState) : Bool :=
  cfg.multiSelectModifier == some "alt"

/-- `useSingleClickToOpen`: the configured `workbench.list.openMode` is not
strictly equal to `'doubleClick'` (so also true when the value is absent). -/
def useSingleClickToOpen (cfg : ConfigState) : Bool :=
  cfg.openMode != some "doubleClick"

/-- A DOM `UIEvent` as the module inspects it: a `MouseEvent` (with
`button`, `detail` and the modifier keys), a `KeyboardEvent` (with `detail`
and the optional `preserveFocus` flag of `SelectionKeyboardEvent`, `none`
when the property is not a boolean), or some other `UIEvent`.  Every
variant carries the event `type` string and the `UIEvent.detail` count. -/
inductive BrowserEvent where
  | mouse (eventType : String) (button : Nat) (detail : Nat)
      (ctrlKey metaKey altKey : Bool)
  | keyboard (eventType : String) (detail : Nat) (preserveFocus : Option Bool)
  | otherUI (eventType : String) (detail : Nat)
deriving DecidableEq

/-- The event's `type` property. -/
def BrowserEvent.eventType : BrowserEvent → String
  | .mouse t _ _ _ _ _ => t
  | .keyboard t _ _ => t
  | .otherUI t _ => t

/-- The event's `UIEvent.detail` property. -/
def BrowserEvent.detail : BrowserEvent → Nat
  | .mouse _ _ d _ _ _ => d
  | .keyboard _ d _ => d
  | .otherUI _ d => d

/-- `event instanceof MouseEvent`. -/
def BrowserEvent.isMouseEvent : BrowserEvent → Bool
  | .mouse _ _ _ _ _ _ => true
  | _ => false

/-- `event instanceof KeyboardEvent`. -/
def BrowserEvent.isKeyboardEvent : BrowserEvent → Bool
  | .keyboard _ _ _ => true
  | _ => false

/-- `event instanceof MouseEvent && event.button === 1` (middle click). -/
def BrowserEvent.isMiddleButton : BrowserEvent → Bool
  | .mouse _ b _ _ _ _ => b == 1
  | _ => false

/-- `event instanceof MouseEvent && (ctrlKey || metaKey || altKey)`. -/
def BrowserEvent.hasSideBySideModifier : BrowserEvent → Bool
  | .mouse _ _ _ c m a => c || m || a
  | _ => false

/-- The `preserveFocus` flag of a `SelectionKeyboardEvent` when the event is
a `KeyboardEvent` and the flag is a boolean; `none` otherwise. -/
def BrowserEvent.keyboardPreserveFocus : BrowserEvent → Option Bool
  | .keyboard _ _ pf => pf
  | _ => none

/-- The `IEditorOptions` fields set by this module. -/
structure EditorOptions where
  preserveFocus : Bool
  pinned : Bool
  revealIfVisible : Bool
deriving DecidableEq

/-- An `IOpenEvent<T>` fired on `onDidOpenResource`. `element` is
`tree.getSelection()[0]`, which is absent on an empty selection. -/
structure OpenEvent (T : Type) where
  editorOptions : EditorOptions
  sideBySide : Bool
  element : Option T
deriving DecidableEq

/-- The state of the tree a `TreeResourceNavigator2` drives: its
`openOnSingleClick` option and its current selection and focus lists. -/
structure NavigatorTree (T : Type) where
  openOnSingleClick : Bool
  selection : List T
  focus : List T
deriving DecidableEq

/-- `TreeResourceNavigator2.open`: fires one `IOpenEvent` built from the
given flags, with `revealIfVisible: true` and `element` the first element
of the tree's current selection. -/
def fireOpenEvent {T : Type} (tree : NavigatorTree T)
    (preserveFocus pinned sideBySide : Bool) : OpenEvent T :=
  { editorOptions :=
      { preserveFocus := preserveFocus, pinned := pinned, revealIfVisible := true },
    sideBySide := sideBySide,
    element := tree.selection.head? }

/-- `TreeResourceNavigator2.onSelection`: returns the list of events fired
on `onDidOpenResource` for one selection-change event whose browser event
is `browserEvent` (`none` when `e.browserEvent` is absent). -/
def navigatorOnSelection {T : Type} (tree : NavigatorTree T)
    (browserEvent : Option BrowserEvent) : List (OpenEvent T) :=
  match browserEvent with
  | none => []
  | some ev =>
    if ev.eventType == "contextmenu" then []
    else
      let isKeyboardEvent := ev.isKeyboardEvent
      let isMiddleClick := ev.isMiddleButton
      let isDoubleClick := ev.detail == 2
      let preserveFocus :=
        match ev.keyboardPreserveFocus with
        | some pf => pf
        | none => !isDoubleClick
      if tree.openOnSingleClick || isDoubleClick || isKeyboardEvent then
        [fireOpenEvent tree preserveFocus (isDoubleClick || isMiddleClick)
          ev.hasSideBySideModifier]
      else []

/-- `TreeResourceNavigator2.onFocus`: sets the tree's selection to the
focused elements, then fires `open(true, false, false)` exactly when a
browser event is present and is not a `MouseEvent`.  Returns the updated
tree state and the list of fired events. -/
def navigatorOnFocus {T : Type} (tree : NavigatorTree T)
    (browserEvent : Option BrowserEvent) : NavigatorTree T × List (OpenEvent T) :=
  let tree' : NavigatorTree T := { tree with selection := tree.focus }
  match browserEvent with
  | none => (tree', [])
  | some ev =>
    if ev.isMouseEvent then (tree', [])
    else (tree', [fireOpenEvent tree' true false false])

/-- `IResourceResultsNavigationOptions`. -/
structure ResourceNavigationOptions where
  openOnFocus : Bool
deriving DecidableEq

/-- `TreeResourceNavigator2.registerListeners` registers the focus handler
exactly when options are present with `openOnFocus` true. -/
def focusListenerRegistered (options : Option ResourceNavigationOptions) : Bool :=
  match options with
  | some o => o.openOnFocus
  | none => false

/-- The three boolean context keys a workbench list/tree binds. -/
structure ListContextKeys where
  listHasSelectionOrFocus : Bool
  listDoubleSelection : Bool
  listMultiSelection : Bool
deriving DecidableEq

/-- The `onSelectionChange`/`onDidChangeSelection` handler of
`WorkbenchList`, `WorkbenchObjectTree`, `WorkbenchDataTree` and
`WorkbenchAsyncDataTree`: reads the current selection and focus and sets
all three context keys. -/
def workbenchListOnSelectionChange {T : Type} (selection focus : List T)
    (_keys : ListContextKeys) : ListContextKeys :=
  { listHasSelectionOrFocus := decide (selection.length > 0) || decide (focus.length > 0),
    listMultiSelection := decide (selection.length > 1),
    listDoubleSelection := decide (selection.length = 2) }

/-- The `onFocusChange`/`onDidChangeFocus` handler of the same widgets:
sets only `listHasSelectionOrFocus`. -/
def workbenchListOnFocusChange {T : Type} (selection focus : List T)
    (keys : ListContextKeys) : ListContextKeys :=
  { keys with
    listHasSelectionOrFocus := decide (selection.length > 0) || decide (focus.length > 0) }

/-- The state of a `WorkbenchOpenController`. -/
structure WorkbenchOpenControllerState where
  openOnSingleClick : Bool
deriving DecidableEq

/-- The `WorkbenchOpenController` constructor reads `openOnSingleClick`
from the configuration. -/
def mkWorkbenchOpenController (cfg : ConfigState) : WorkbenchOpenControllerState :=
  { openOnSingleClick := useSingleClickToOpen cfg }

/-- The controller's `onDidChangeConfiguration` listener: re-reads
`openOnSingleClick` exactly when the change affects
`workbench.list.openMode`. -/
def openControllerOnConfigChange (affectsOpenMode : Bool) (cfg : ConfigState)
    (s : WorkbenchOpenControllerState) : WorkbenchOpenControllerState :=
  if affectsOpenMode then mkWorkbenchOpenController cfg else s

/-- `WorkbenchOpenController.shouldOpen`.  `existing` is the wrapped
`existingOpenController`'s `shouldOpen`, when one was supplied. -/
def workbenchShouldOpen (openOnSingleClick : Bool)
    (existing : Option (BrowserEvent → Bool)) (event : BrowserEvent) : Bool :=
  match event with
  | .mouse _ button detail _ _ _ =>
    let isLeftButton := button == 0
    let isDoubleClick := detail == 2
    if isLeftButton && !openOnSingleClick && !isDoubleClick then false
    else if isLeftButton || button == 1 then
      match existing with
      | some f => f event
      | none => true
    else false
  | _ =>
    match existing with
    | some f => f event
    | none => true

/-- The state of a `MultipleSelectionController`. -/
structure MultipleSelectionControllerState where
  useAltAsMultipleSelectionModifier : Bool
deriving DecidableEq

/-- The `MultipleSelectionController` constructor reads the modifier from
the configuration. -/
def mkMultipleSelectionController (cfg : ConfigState) : MultipleSelectionControllerState :=
  { useAltAsMultipleSelectionModifier := useAltAsMultipleSelectionModifier cfg }

/-- The controller's `onDidChangeConfiguration` listener: re-reads the
modifier exactly when the change affects
`workbench.list.multiSelectModifier`. -/
def multipleSelectionControllerOnConfigChange (affectsMultiSelectModifier : Bool)
    (cfg : ConfigState) (s : MultipleSelectionControllerState) :
    MultipleSelectionControllerState :=
  if affectsMultiSelectModifier then mkMultipleSelectionController cfg else s

/-- `MultipleSelectionController.isSelectionSingleChangeEvent`:
`event.browserEvent.altKey` when the alt modifier is configured, else the
platform default `isSelectionSingleChangeEvent` result (a function of the
event defined outside this module, passed in as `platformDefault`). -/
def mscIsSelectionSingleChangeEvent (s : MultipleSelectionControllerState)
    (browserEventAltKey : Bool) (platformDefault : Bool) : Bool :=
  if s.useAltAsMultipleSelectionModifier then browserEventAltKey else platformDefault

/-- `ListService` state: the registered widgets (identified by `Nat` ids,
in registration order) and the last focused widget. -/
structure ListServiceState where
  lists : List Nat
  lastFocusedWidget : Option Nat
deriving DecidableEq

/-- `ListService.register`: throws when the widget is already registered;
otherwise appends the registration and, when the widget's HTML element is
the document's active element, records it as last focused. -/
def listServiceRegister (s : ListServiceState) (widget : Nat)
    (widgetIsActiveElement : Bool) : Except String ListServiceState :=
  if s.lists.any (fun l => l == widget) then
    .error "Cannot register the same widget multiple times"
  else
    .ok { lists := s.lists ++ [widget],
          lastFocusedWidget :=
            if widgetIsActiveElement then some widget else s.lastFocusedWidget }

/-- The `widget.onDidFocus` listener installed by `register`. -/
def listServiceOnDidFocus (s : ListServiceState) (widget : Nat) : ListServiceState :=
  { s with lastFocusedWidget := some widget }

/-- The `widget.onDidDispose` listener installed by `register`: drops the
widget's registration and clears `lastFocusedWidget` when it was this
widget.  (The source filters by registration-object identity; under the
no-duplicates invariant that is filtering by widget.) -/
def listServiceOnDidDispose (s : ListServiceState) (widget : Nat) : ListServiceState :=
  { lists := s.lists.filter (fun l => l != widget),
    lastFocusedWidget :=
      if s.lastFocusedWidget == some widget then none else s.lastFocusedWidget }

/-- JavaScript `Array.prototype.indexOf`: index of the first occurrence,
`-1` when absent. -/
def jsIndexOf (l : List Nat) (x : Nat) : Int :=
  match l.findIdx? (fun y => y == x) with
  | some i => (i : Int)
  | none => -1

/-- JavaScript `Array.prototype.splice(start, 1)`: a negative `start`
counts from the end (clamped at 0); a `start` past the end removes
nothing. -/
def jsSpliceRemoveOne (l : List Nat) (start : Int) : List Nat :=
  let s : Nat := if start < 0 then (max ((l.length : Int) + start) 0).toNat else start.toNat
  l.take s ++ l.drop (s + 1)

/-- Disposing the `IDisposable` returned by `register` runs
`this.lists.splice(this.lists.indexOf(registeredList), 1)`, modelled with
JavaScript `indexOf`/`splice` semantics. -/
def listServiceDisposeRegistration (s : ListServiceState) (widget : Nat) :
    ListServiceState :=
  { s with lists := jsSpliceRemoveOne s.lists (jsIndexOf s.lists widget) }

/-- The result of installing a multiple-selection controller in
`toWorkbenchListOptions`: either the caller-supplied controller is kept, or
a fresh `MultipleSelectionController` is installed. -/
inductive InstalledMultipleSelectionController where
  | callerSupplied (id : Nat)
  | workbench (state : MultipleSelectionControllerState)
deriving DecidableEq

/-- The keyboard-navigation label provider placed in the result options: a
wrapper delegating `getKeyboardNavigationLabel` to the caller's provider
and `mightProducePrintableCharacter` to the keybinding service. -/
inductive InstalledLabelProvider where
  | wrapped (original : Nat)
deriving DecidableEq

/-- The open controller placed in the result options: a
`WorkbenchOpenController` wrapping any caller-supplied controller. -/
structure InstalledOpenController where
  state : WorkbenchOpenControllerState
  existingOpenController : Option Nat
deriving DecidableEq

/-- The caller's `IListOptions` fields that `toWorkbenchListOptions`
inspects; caller-supplied controllers and providers are identified by
`Nat` ids, and `otherFields` stands for every remaining field copied by
the `{ ...options }` spread. -/
structure ListOptionsModel where
  multipleSelectionSupport : Option Bool
  multipleSelectionController : Option Nat
  openController : Option Nat
  keyboardNavigationLabelProvider : Option Nat
  otherFields : Nat
deriving DecidableEq

/-- The options object `toWorkbenchListOptions` returns. -/
structure WorkbenchListOptionsModel where
  multipleSelectionSupport : Option Bool
  multipleSelectionController : Option InstalledMultipleSelectionController
  openController : InstalledOpenController
  keyboardNavigationLabelProvider : Option InstalledLabelProvider
  otherFields : Nat
deriving DecidableEq

/-- `toWorkbenchListOptions`: copies the caller's options into a new
object, installs a `MultipleSelectionController` when multi-selection is
not disabled and the caller supplied none, always replaces the open
controller by a `WorkbenchOpenController` wrapping the caller's, and wraps
any keyboard-navigation label provider. -/
def toWorkbenchListOptions (options : ListOptionsModel) (cfg : ConfigState) :
    WorkbenchListOptionsModel :=
  let msc : Option InstalledMultipleSelectionController :=
    if options.multipleSelectionSupport != some false
        && options.multipleSelectionController == none then
      some (.workbench (mkMultipleSelectionController cfg))
    else
      options.multipleSelectionController.map .callerSupplied
  { multipleSelectionSupport := options.multipleSelectionSupport,
    multipleSelectionController := msc,
    openController :=
      { state := mkWorkbenchOpenController cfg,
        existingOpenController := options.openController },
    keyboardNavigationLabelProvider :=
      options.keyboardNavigationLabelProvider.map .wrapped,
    otherFields := options.otherFields }

/-- The configuration-derived fields of the options a
`WorkbenchObjectTree` / `WorkbenchDataTree` / `WorkbenchAsyncDataTree`
passes to its `super` constructor. -/
structure TreeConstructionOptions where
  simpleKeyboardNavigation : Bool
  filterOnType : Bool
  indent : Nat
  openOnSingleClick : Bool
  automaticKeyboardNavigation : Option Bool
deriving DecidableEq

/-- The values read at construction:
`simpleKeyboardNavigation: keyboardNavigation === 'simple'`,
`filterOnType: keyboardNavigation === 'filter'`,
`indent: configurationService.getValue(treeIndentKey)`,
`openOnSingleClick: useSingleClickToOpen(...)`, and the automatic keyboard
navigation context-key value. -/
def workbenchTreeConstructionOptions (cfg : ConfigState)
    (automaticKeyboardNavigation : Option Bool) : TreeConstructionOptions :=
  { simpleKeyboardNavigation := cfg.keyboardNavigation == some "simple",
    filterOnType := cfg.keyboardNavigation == some "filter",
    indent := cfg.treeIndent,
    openOnSingleClick := useSingleClickToOpen cfg,
    automaticKeyboardNavigation := automaticKeyboardNavigation }

/-- One `updateOptions` call made by the trees' configuration listener. -/
inductive UpdateOptionsCall where
  | setOpenOnSingleClick (openOnSingleClick : Bool)
  | setIndent (indent : Nat)
  | setKeyboardNavigation (simpleKeyboardNavigation filterOnType : Bool)
deriving DecidableEq

/-- Which settings a configuration-change event affects. -/
structure ConfigurationChangeEvent where
  affectsOpenMode : Bool
  affectsMultiSelectModifier : Bool
  affectsTreeIndent : Bool
  affectsKeyboardNavigation : Bool
deriving DecidableEq

/-- The trees' `onDidChangeConfiguration` listener, as the sequence of
`updateOptions` calls it makes (the multi-select branch only updates the
`_useAltAsMultipleSelectionModifier` field and calls nothing).  Each value
is freshly read from the configuration at the time of the event. -/
def workbenchTreeOnDidChangeConfiguration (e : ConfigurationChangeEvent)
    (cfg : ConfigState) : List UpdateOptionsCall :=
  (if e.affectsOpenMode then [.setOpenOnSingleClick (useSingleClickToOpen cfg)] else [])
    ++ (if e.affectsTreeIndent then [.setIndent cfg.treeIndent] else [])
    ++ (if e.affectsKeyboardNavigation then
          [.setKeyboardNavigation (cfg.keyboardNavigation == some "simple")
            (cfg.keyboardNavigation == some "filter")]
        else [])

/-- The fresh `_useAltAsMultipleSelectionModifier` field value after the
same listener runs. -/
def workbenchTreeUseAltAfterConfigChange (e : ConfigurationChangeEvent)
    (cfg : ConfigState) (current : Bool) : Bool :=
  if e.affectsMultiSelectModifier then useAltAsMultipleSelectionModifier cfg else current

/-- What `keybindingService.softDispatch` reports for one event; the filter
only looks at `enterChord` (a `null` result is `none`). -/
structure SoftDispatchResult where
  enterChord : Bool
deriving DecidableEq

/-- One call of the filter returned by
`createKeyboardNavigationEventFilter`: given the captured `inChord` flag
and the soft-dispatch result for this event, returns (accepted, new
`inChord`).  When `inChord` is set the event is rejected without
dispatching and the flag is cleared. -/
def keyboardNavigationEventFilterStep (inChord : Bool)
    (dispatchResult : Option SoftDispatchResult) : Bool × Bool :=
  if inChord then (false, false)
  else
    match dispatchResult with
    | some r => if r.enterChord then (false, true) else (true, false)
    | none => (true, false)

/-- Running the filter over a sequence of events, each given by its
soft-dispatch result; yields the accept/reject verdicts. -/
def runKeyboardNavigationEventFilter (inChord : Bool) :
    List (Option SoftDispatchResult) → List Bool
  | [] => []
  | e :: rest =>
    (keyboardNavigationEventFilterStep inChord e).1
      :: runKeyboardNavigationEventFilter (keyboardNavigationEventFilterStep inChord e).2 rest

/-- The `inChord` flag after the filter has processed a sequence. -/
def filterChordStateAfter (inChord : Bool) :
    List (Option SoftDispatchResult) → Bool
  | [] => inChord
  | e :: rest =>
    filterChordStateAfter (keyboardNavigationEventFilterStep inChord e).2 rest

/-- The `inChord` flag when event `n` of a run starting at `inChord =
false` (as `createKeyboardNavigationEventFilter` starts) arrives. -/
def filterChordStateBefore (events : List (Option SoftDispatchResult)) (n : Nat) : Bool :=
  filterChordStateAfter false (events.take n)

/-- Claim C2: after every selection-change or focus-change event is
processed by a workbench list/tree, `listHasSelectionOrFocus` equals
(selection non-empty or focus non-empty); and after every selection-change
event, `listMultiSelection` equals (selection length > 1) and
`listDoubleSelection` equals (selection length = 2). -/
theorem workbenchList_contextKeys_spec {T : Type} (selection focus : List T)
    (keys : ListContextKeys) :
    ((workbenchListOnSelectionChange selection focus keys).listHasSelectionOrFocus = true ↔
      (selection ≠ [] ∨ focus ≠ [])) ∧
    ((workbenchListOnSelectionChange selection focus keys).listMultiSelection = true ↔
      selection.length > 1) ∧
    ((workbenchListOnSelectionChange selection focus keys).listDoubleSelection = true ↔
      selection.length = 2) ∧
    ((workbenchListOnFocusChange selection focus keys).listHasSelectionOrFocus = true ↔
      (selection ≠ [] ∨ focus ≠ [])) := by
  refine ⟨?_, ?_, ?_, ?_⟩ <;>
    simp [workbenchListOnSelectionChange, workbenchListOnFocusChange,
      List.length_pos]

/-- Claim C3: `WorkbenchOpenController.shouldOpen`, with no existing open
controller wrapped: a left-button `MouseEvent` with `openOnSingleClick`
false and `detail ≠ 2` is refused; otherwise a left- or middle-button
`MouseEvent` is accepted; any other mouse button is refused; any
non-`MouseEvent` is accepted; and the controller's `openOnSingleClick` is
true iff the configured `workbench.list.openMode` is not `'doubleClick'`. -/
theorem workbenchShouldOpen_spec (openOnSingleClick : Bool) (cfg : ConfigState)
    (event : BrowserEvent) :
    (∀ t b d c m a, event = BrowserEvent.mouse t b d c m a →
      ((b = 0 ∧ openOnSingleClick = false ∧ d ≠ 2) →
        workbenchShouldOpen openOnSingleClick none event = false) ∧
      (¬(b = 0 ∧ openOnSingleClick = false ∧ d ≠ 2) → (b = 0 ∨ b = 1) →
        workbenchShouldOpen openOnSingleClick none event = true) ∧
      (b ≠ 0 → b ≠ 1 →
        workbenchShouldOpen openOnSingleClick none event = false)) ∧
    (event.isMouseEvent = false →
      workbenchShouldOpen openOnSingleClick none event = true) ∧
    ((mkWorkbenchOpenController cfg).openOnSingleClick = true ↔
      cfg.openMode ≠ some "doubleClick") := by
  refine ⟨?_, ?_, ?_⟩
  · rintro t b d c m a rfl
    by_cases hb0 : b = 0 <;> by_cases hb1 : b = 1 <;> by_cases hd : d = 2 <;>
      cases openOnSingleClick <;>
      simp_all [workbenchShouldOpen]
  · cases event <;> simp [workbenchShouldOpen, BrowserEvent.isMouseEvent]
  · simp [mkWorkbenchOpenController, useSingleClickToOpen]

/-- Witness for C3 at a concrete input: a left-button double click with
`openOnSingleClick` false is accepted. -/
theorem workbenchShouldOpen_spec_witness :
    workbenchShouldOpen false none (BrowserEvent.mouse "click" 0 2 false false false) = true :=
  ((workbenchShouldOpen_spec false ⟨none, none, none, 8⟩
      (BrowserEvent.mouse "click" 0 2 false false false)).1
    "click" 0 2 false false false rfl).2.1 (by simp) (Or.inl rfl)

/-- Claim C5: a `MultipleSelectionController` reads
`useAltAsMultipleSelectionModifier` as (configured
`workbench.list.multiSelectModifier` = `'alt'`), recomputes it exactly when
a configuration change affects that key, and dispatches
`isSelectionSingleChangeEvent` to the event's `altKey` when it is true and
to the platform default otherwise. -/
theorem multipleSelectionController_spec (cfg newCfg : ConfigState)
    (s : MultipleSelectionControllerState) (altKey platformDefault : Bool) :
    ((mkMultipleSelectionController cfg).useAltAsMultipleSelectionModifier = true ↔
      cfg.multiSelectModifier = some "alt") ∧
    multipleSelectionControllerOnConfigChange true newCfg s
      = mkMultipleSelectionController newCfg ∧
    multipleSelectionControllerOnConfigChange false newCfg s = s ∧
    (s.useAltAsMultipleSelectionModifier = true →
      mscIsSelectionSingleChangeEvent s altKey platformDefault = altKey) ∧
    (s.useAltAsMultipleSelectionModifier = false →
      mscIsSelectionSingleChangeEvent s altKey platformDefault = platformDefault) := by
  refine ⟨?_, rfl, rfl, ?_, ?_⟩
  · simp [mkMultipleSelectionController, useAltAsMultipleSelectionModifier]
  · intro h; simp [mscIsSelectionSingleChangeEvent, h]
  · intro h; simp [mscIsSelectionSingleChangeEvent, h]

/-- Witness for C5 at a concrete input: with the alt modifier configured,
the controller returns the event's `altKey`. -/
theorem multipleSelectionController_spec_witness :
    mscIsSelectionSingleChangeEvent ⟨true⟩ true false = true :=
  (multipleSelectionController_spec ⟨some "alt", none, none, 8⟩
    ⟨some "alt", none, none, 8⟩ ⟨true⟩ true false).2.2.2.1 rfl

/-- Claim C1: for every selection-change event delivered to
`TreeResourceNavigator2.onSelection` whose browser event exists and is not
of type `'contextmenu'`, exactly one `onDidOpenResource` event is fired iff
the tree's `openOnSingleClick` is true, or the browser event's `detail` is
2, or the browser event is a `KeyboardEvent`; and the fired event has
`pinned` = (double click or middle-button click), `sideBySide` = (mouse
event with ctrl/meta/alt), `preserveFocus` = the keyboard event's
`preserveFocus` flag when it is a boolean and otherwise the negation of
double click, and `element` = the first element of the tree's current
selection. -/
theorem treeResourceNavigator2_onSelection_spec {T : Type} (tree : NavigatorTree T)
    (ev : BrowserEvent) (hctx : ev.eventType ≠ "contextmenu") :
    ((navigatorOnSelection tree (some ev)).length = 1 ↔
      (tree.openOnSingleClick = true ∨ ev.detail = 2 ∨ ev.isKeyboardEvent = true)) ∧
    ∀ fired, navigatorOnSelection tree (some ev) = [fired] →
      (fired.editorOptions.pinned = true ↔ (ev.detail = 2 ∨ ev.isMiddleButton = true)) ∧
      fired.sideBySide = ev.hasSideBySideModifier ∧
      (∀ pf, ev.keyboardPreserveFocus = some pf →
        fired.editorOptions.preserveFocus = pf) ∧
      (ev.keyboardPreserveFocus = none →
        (fired.editorOptions.preserveFocus = true ↔ ¬ev.detail = 2)) ∧
      fired.element = tree.selection.head? := by
  have hct : (ev.eventType == "contextmenu") = false := by
    simpa using hctx
  constructor
  · simp only [navigatorOnSelection, hct, Bool.false_eq_true, if_false]
    split
    next h => exact iff_of_true (by simp) (or_assoc.mp (by simpa using h))
    next h =>
      simp only [List.length_nil]
      constructor
      · omega
      · intro hc
        exact absurd (or_assoc.mpr hc) (by simpa using h)
  · intro fired hfired
    simp only [navigatorOnSelection, hct, Bool.false_eq_true, if_false] at hfired
    split at hfired
    next h =>
      simp only [List.cons.injEq, and_true] at hfired
      subst hfired
      refine ⟨by simp [fireOpenEvent], by simp [fireOpenEvent], ?_, ?_, by simp [fireOpenEvent]⟩
      · intro pf hpf
        simp [fireOpenEvent, hpf]
      · intro hpf
        simp [fireOpenEvent, hpf]
    next h => exact absurd hfired (by simp)

/-- Witness for C1 at a concrete input: a keyboard-driven selection change
on a tree with a single selected element fires exactly one event. -/
theorem treeResourceNavigator2_onSelection_spec_witness :
    (navigatorOnSelection (T := Nat) ⟨true, [5], []⟩
      (some (BrowserEvent.keyboard "keydown" 0 none))).length = 1 :=
  (treeResourceNavigator2_onSelection_spec ⟨true, [5], []⟩
    (BrowserEvent.keyboard "keydown" 0 none) (by decide)).1.mpr (Or.inl rfl)

/-- Claim C7: for a `TreeResourceNavigator2` constructed with
`openOnFocus` true (so the focus listener is registered), every
focus-change event first sets the tree's selection to the focused
elements; then, with no browser event nothing more happens; with a
non-mouse browser event exactly one open event fires with `preserveFocus`
true, `pinned` false and `sideBySide` false; and with a mouse browser
event no open event fires. -/
theorem treeResourceNavigator2_onFocus_spec {T : Type} (tree : NavigatorTree T)
    (browserEvent : Option BrowserEvent) :
    focusListenerRegistered (some { openOnFocus := true }) = true ∧
    (navigatorOnFocus tree browserEvent).1 = { tree with selection := tree.focus } ∧
    (browserEvent = none → (navigatorOnFocus tree browserEvent).2 = []) ∧
    (∀ ev, browserEvent = some ev → ev.isMouseEvent = false →
      (navigatorOnFocus tree browserEvent).2 =
        [{ editorOptions := { preserveFocus := true, pinned := false, revealIfVisible := true },
           sideBySide := false, element := tree.focus.head? }]) ∧
    (∀ ev, browserEvent = some ev → ev.isMouseEvent = true →
      (navigatorOnFocus tree browserEvent).2 = []) := by
  refine ⟨rfl, ?_, ?_, ?_, ?_⟩
  · cases browserEvent with
    | none => rfl
    | some ev => simp only [navigatorOnFocus]; split <;> rfl
  · rintro rfl; rfl
  · rintro ev rfl hm
    simp [navigatorOnFocus, hm, fireOpenEvent]
  · rintro ev rfl hm
    simp [navigatorOnFocus, hm]

/-- Witness for C7 at a concrete input: a keyboard-driven focus change
fires one open event with the stated editor options. -/
theorem treeResourceNavigator2_onFocus_spec_witness :
    (navigatorOnFocus (T := Nat) ⟨false, [], [3]⟩
      (some (BrowserEvent.keyboard "keydown" 0 none))).2 =
      [{ editorOptions := { preserveFocus := true, pinned := false, revealIfVisible := true },
         sideBySide := false, element := some 3 }] :=
  (treeResourceNavigator2_onFocus_spec ⟨false, [], [3]⟩
      (some (BrowserEvent.keyboard "keydown" 0 none))).2.2.2.1
    (BrowserEvent.keyboard "keydown" 0 none) rfl rfl

/-- Claim C4: right after `register(w)` with `w`'s element active,
`lastFocusedList` is `w`; after `w` fires `onDidFocus`, `lastFocusedList`
is `w`; after `w` fires `onDidDispose`, if `lastFocusedList` was `w` it is
cleared, and in any case it is no longer `w`. -/
theorem listService_lastFocused_spec (s s' : ListServiceState) (w : Nat) :
    (listServiceRegister s w true = Except.ok s' → s'.lastFocusedWidget = some w) ∧
    (listServiceOnDidFocus s w).lastFocusedWidget = some w ∧
    (s.lastFocusedWidget = some w →
      (listServiceOnDidDispose s w).lastFocusedWidget = none) ∧
    (listServiceOnDidDispose s w).lastFocusedWidget ≠ some w := by
  refine ⟨?_, rfl, ?_, ?_⟩
  · intro h
    unfold listServiceRegister at h
    split at h
    · exact absurd h (by simp)
    · simp only [Except.ok.injEq] at h
      subst h
      rfl
  · intro h
    simp [listServiceOnDidDispose, h]
  · unfold listServiceOnDidDispose
    split
    · simp
    next h => simpa using h

/-- Witness for C4 at a concrete input: focusing then disposing widget 7
clears `lastFocusedList`. -/
theorem listService_lastFocused_spec_witness :
    (listServiceOnDidDispose ⟨[7], some 7⟩ 7).lastFocusedWidget = none :=
  (listService_lastFocused_spec ⟨[7], some 7⟩ ⟨[7], some 7⟩ 7).2.2.1 rfl

theorem findIdx_append_self_aux (l : List Nat) (w : Nat) (i : Nat) (hw : w ∉ l) :
    (l ++ [w]).findIdx? (fun y => y == w) i = some (l.length + i) := by
  induction l generalizing i with
  | nil => simp
  | cons a t ih =>
    have ha : (a == w) = false := by
      simp only [beq_eq_false_iff_ne, ne_eq]
      intro h
      exact hw (h ▸ List.mem_cons_self a t)
    have ht : w ∉ t := fun h => hw (List.mem_cons_of_mem a h)
    simp only [List.cons_append, List.findIdx?_cons, ha, Bool.false_eq_true, if_false]
    rw [ih (i + 1) ht]
    congr 1
    simp only [List.length_cons]
    omega

theorem jsIndexOf_append_self (l : List Nat) (w : Nat) (hw : w ∉ l) :
    jsIndexOf (l ++ [w]) w = (l.length : Int) := by
  unfold jsIndexOf
  rw [findIdx_append_self_aux l w 0 hw]
  simp

theorem take_drop_append_singleton (l : List Nat) (w : Nat) :
    (l ++ [w]).take l.length ++ (l ++ [w]).drop (l.length + 1) = l := by
  induction l with
  | nil => rfl
  | cons a t ih =>
    simp only [List.cons_append, List.length_cons, List.take_succ_cons,
      List.drop_succ_cons, List.cons.injEq, true_and]
    exact ih

theorem jsSplice_removes_last_appended (l : List Nat) (w : Nat) :
    jsSpliceRemoveOne (l ++ [w]) (l.length : Int) = l := by
  have hnn : ¬((l.length : Int) < 0) := by omega
  simp only [jsSpliceRemoveOne, if_neg hnn, Int.toNat_natCast]
  exact take_drop_append_singleton l w

/-- Claim C8: `ListService.register` throws
`'Cannot register the same widget multiple times'` iff the widget is
already registered (the Except error carries no changed state); disposing
the returned disposable removes the widget's registration (restoring the
previous list), after which registering the same widget again succeeds. -/
theorem listServiceRegister_error_spec (s : ListServiceState) (w : Nat) (active : Bool) :
    ((∃ msg, listServiceRegister s w active = Except.error msg) ↔ w ∈ s.lists) ∧
    (w ∉ s.lists → ∀ s', listServiceRegister s w active = Except.ok s' →
      (listServiceDisposeRegistration s' w).lists = s.lists ∧
      ∃ s'', listServiceRegister (listServiceDisposeRegistration s' w) w active
        = Except.ok s'') := by
  constructor
  · unfold listServiceRegister
    split
    next h =>
      simp only [List.any_eq_true, beq_iff_eq] at h
      obtain ⟨x, hx, rfl⟩ := h
      exact iff_of_true ⟨_, rfl⟩ hx
    next h =>
      simp only [List.any_eq_true, beq_iff_eq] at h
      push_neg at h
      constructor
      · rintro ⟨msg, hmsg⟩
        exact absurd hmsg (by simp)
      · intro hc
        exact absurd rfl (h w hc)
  · intro hw s' h
    unfold listServiceRegister at h
    split at h
    next hany =>
      refine absurd hany ?_
      simp only [List.any_eq_true, beq_iff_eq, not_exists]
      rintro x ⟨hx, rfl⟩
      exact hw hx
    next hany =>
      simp only [Except.ok.injEq] at h
      subst h
      have hlists : (listServiceDisposeRegistration
          ⟨s.lists ++ [w], if active then some w else s.lastFocusedWidget⟩ w).lists
          = s.lists := by
        simp only [listServiceDisposeRegistration, jsIndexOf_append_self s.lists w hw]
        exact jsSplice_removes_last_appended s.lists w
      refine ⟨hlists, ?_⟩
      have hc : ¬(s.lists.any fun l => l == w) = true := by
        simp only [List.any_eq_true, beq_iff_eq, not_exists]
        rintro x ⟨hx, rfl⟩
        exact hw hx
      simp only [listServiceRegister, hlists, if_neg hc]
      exact ⟨_, rfl⟩

/-- Witness for C8 at a concrete input: registering widget 4 over `[9]`,
disposing the registration, and registering again succeeds, and a
duplicate registration throws. -/
theorem listServiceRegister_error_spec_witness :
    ((∃ msg, listServiceRegister ⟨[4], none⟩ 4 false = Except.error msg) ↔ (4 ∈ [4])) ∧
    (listServiceDisposeRegistration ⟨[9, 4], none⟩ 4).lists = [9] := by
  constructor
  · exact (listServiceRegister_error_spec ⟨[4], none⟩ 4 false).1
  · exact ((listServiceRegister_error_spec ⟨[9], none⟩ 4 false).2 (by decide)
      ⟨[9, 4], none⟩ rfl).1

/-- Claim C9: `toWorkbenchListOptions` builds a new options object that
agrees with the caller's options on every untouched field (the input is
never mutated): a `MultipleSelectionController` is installed only when
`multipleSelectionSupport` is not `false` and the caller supplied no
controller, a caller-supplied controller is kept, and the open controller
is always replaced by a `WorkbenchOpenController` wrapping any
caller-supplied open controller. -/
theorem toWorkbenchListOptions_spec (options : ListOptionsModel) (cfg : ConfigState) :
    (toWorkbenchListOptions options cfg).multipleSelectionSupport
      = options.multipleSelectionSupport ∧
    (toWorkbenchListOptions options cfg).otherFields = options.otherFields ∧
    (toWorkbenchListOptions options cfg).keyboardNavigationLabelProvider
      = options.keyboardNavigationLabelProvider.map InstalledLabelProvider.wrapped ∧
    ((options.multipleSelectionSupport ≠ some false ∧
        options.multipleSelectionController = none) →
      (toWorkbenchListOptions options cfg).multipleSelectionController
        = some (InstalledMultipleSelectionController.workbench
            (mkMultipleSelectionController cfg))) ∧
    (∀ c, options.multipleSelectionController = some c →
      (toWorkbenchListOptions options cfg).multipleSelectionController
        = some (InstalledMultipleSelectionController.callerSupplied c)) ∧
    (options.multipleSelectionSupport = some false →
      (toWorkbenchListOptions options cfg).multipleSelectionController
        = options.multipleSelectionController.map
            InstalledMultipleSelectionController.callerSupplied) ∧
    (toWorkbenchListOptions options cfg).openController
      = { state := mkWorkbenchOpenController cfg,
          existingOpenController := options.openController } := by
  refine ⟨rfl, rfl, rfl, ?_, ?_, ?_, rfl⟩
  · rintro ⟨h1, h2⟩
    simp [toWorkbenchListOptions, h1, h2]
  · intro c hc
    simp [toWorkbenchListOptions, hc]
  · intro h
    simp [toWorkbenchListOptions, h]

/-- Witness for C9 at a concrete input: with multi-selection enabled and no
caller-supplied controller, a fresh workbench controller is installed. -/
theorem toWorkbenchListOptions_spec_witness :
    (toWorkbenchListOptions ⟨none, none, none, none, 0⟩
        ⟨none, none, none, 8⟩).multipleSelectionController
      = some (InstalledMultipleSelectionController.workbench
          (mkMultipleSelectionController ⟨none, none, none, 8⟩)) :=
  (toWorkbenchListOptions_spec ⟨none, none, none, none, 0⟩
      ⟨none, none, none, 8⟩).2.2.2.1 ⟨by simp, rfl⟩

/-- Claim C6: at construction a `WorkbenchObjectTree` (and likewise
`WorkbenchDataTree`, `WorkbenchAsyncDataTree`) passes
`simpleKeyboardNavigation` = (`workbench.list.keyboardNavigation` =
`'simple'`), `filterOnType` = (that value = `'filter'`) and `indent` = the
value of `workbench.tree.indent` to the widget; and on every configuration
change affecting the keyboard-navigation or tree-indent settings,
`updateOptions` is called with the freshly-read values. -/
theorem workbenchTree_configuration_spec (cfg : ConfigState) (akn : Option Bool)
    (e : ConfigurationChangeEvent) :
    ((workbenchTreeConstructionOptions cfg akn).simpleKeyboardNavigation = true ↔
      cfg.keyboardNavigation = some "simple") ∧
    ((workbenchTreeConstructionOptions cfg akn).filterOnType = true ↔
      cfg.keyboardNavigation = some "filter") ∧
    (workbenchTreeConstructionOptions cfg akn).indent = cfg.treeIndent ∧
    (e.affectsTreeIndent = true →
      UpdateOptionsCall.setIndent cfg.treeIndent
        ∈ workbenchTreeOnDidChangeConfiguration e cfg) ∧
    (e.affectsKeyboardNavigation = true →
      UpdateOptionsCall.setKeyboardNavigation
          (cfg.keyboardNavigation == some "simple")
          (cfg.keyboardNavigation == some "filter")
        ∈ workbenchTreeOnDidChangeConfiguration e cfg) := by
  refine ⟨?_, ?_, rfl, ?_, ?_⟩
  · simp [workbenchTreeConstructionOptions]
  · simp [workbenchTreeConstructionOptions]
  · intro h
    simp [workbenchTreeOnDidChangeConfiguration, h]
  · intro h
    simp [workbenchTreeOnDidChangeConfiguration, h]

/-- Witness for C6 at a concrete input: a change affecting both settings
produces both `updateOptions` calls. -/
theorem workbenchTree_configuration_spec_witness :
    UpdateOptionsCall.setIndent 12
      ∈ workbenchTreeOnDidChangeConfiguration ⟨false, false, true, true⟩
          ⟨none, none, some "filter", 12⟩ :=
  (workbenchTree_configuration_spec ⟨none, none, some "filter", 12⟩ none
    ⟨false, false, true, true⟩).2.2.2.1 rfl

/-- Claim C10 as stated: whenever soft dispatch of event `n` reports
`enterChord`, the filter rejects event `n` and event `n + 1`, for every
event sequence (the filter starts with `inChord = false`). -/
def keyboardNavigationFilterClaim : Prop :=
  ∀ (events : List (Option SoftDispatchResult)) (n : Nat) (r : SoftDispatchResult),
    events[n]? = some (some r) → r.enterChord = true →
    (runKeyboardNavigationEventFilter false events)[n]? = some false ∧
    (n + 1 < events.length →
      (runKeyboardNavigationEventFilter false events)[n + 1]? = some false)

/-- Counterexample to C10 as stated: with three events whose soft dispatch
reports `enterChord`, `enterChord`, no chord, event 1 reports `enterChord`
yet the filter accepts event 2 — because event 1 was consumed by the
pending-chord branch without being dispatched, which cleared `inChord`. -/
theorem keyboardNavigationFilterClaim_false : ¬keyboardNavigationFilterClaim := by
  intro h
  have h2 := (h [some ⟨true⟩, some ⟨true⟩, some ⟨false⟩] 1 ⟨true⟩ rfl rfl).2 (by decide)
  exact absurd h2 (by decide)

theorem keyboardNavigationEventFilter_chord_aux
    (events : List (Option SoftDispatchResult)) (inChord : Bool) (n : Nat)
    (r : SoftDispatchResult)
    (hn : events[n]? = some (some r)) (hr : r.enterChord = true)
    (hs : filterChordStateAfter inChord (events.take n) = false) :
    (runKeyboardNavigationEventFilter inChord events)[n]? = some false ∧
    (n + 1 < events.length →
      (runKeyboardNavigationEventFilter inChord events)[n + 1]? = some false) := by
  induction events generalizing inChord n with
  | nil => simp at hn
  | cons e rest ih =>
    cases n with
    | zero =>
      simp only [List.getElem?_cons_zero, Option.some.injEq] at hn
      subst hn
      simp only [List.take_zero, filterChordStateAfter] at hs
      subst hs
      constructor
      · simp [runKeyboardNavigationEventFilter, keyboardNavigationEventFilterStep, hr]
      · intro hlen
        cases rest with
        | nil => simp at hlen
        | cons e2 rest2 =>
          simp [runKeyboardNavigationEventFilter, keyboardNavigationEventFilterStep, hr]
    | succ m =>
      simp only [List.getElem?_cons_succ] at hn
      have hs' : filterChordStateAfter
          (keyboardNavigationEventFilterStep inChord e).2 (rest.take m) = false := by
        simpa [filterChordStateAfter] using hs
      have hrec := ih (keyboardNavigationEventFilterStep inChord e).2 m hn hs'
      constructor
      · simpa [runKeyboardNavigationEventFilter] using hrec.1
      · intro hlen
        have hlen' : m + 1 < rest.length := by
          simpa [List.length_cons] using hlen
        simpa [runKeyboardNavigationEventFilter] using hrec.2 hlen'

/-- C10 amended: if the filter is not already in a pending chord when event
`n` arrives (so soft dispatch is actually consulted for it) and the soft
dispatch of event `n` reports `enterChord`, then the filter rejects event
`n` and event `n + 1`, regardless of what event `n + 1` is. -/
theorem keyboardNavigationEventFilter_chord_rejects_next
    (events : List (Option SoftDispatchResult)) (n : Nat) (r : SoftDispatchResult)
    (hn : events[n]? = some (some r)) (hr : r.enterChord = true)
    (hs : filterChordStateBefore events n = false) :
    (runKeyboardNavigationEventFilter false events)[n]? = some false ∧
    (n + 1 < events.length →
      (runKeyboardNavigationEventFilter false events)[n + 1]? = some false) :=
  keyboardNavigationEventFilter_chord_aux events false n r hn hr hs

/-- Witness for the amended C10 at a concrete input: dispatch of event 0
enters a chord, so events 0 and 1 are both rejected. -/
theorem keyboardNavigationEventFilter_chord_rejects_next_witness :
    (runKeyboardNavigationEventFilter false [some ⟨true⟩, some ⟨false⟩])[0]? = some false ∧
    (runKeyboardNavigationEventFilter false [some ⟨true⟩, some ⟨false⟩])[1]? = some false :=
  ⟨(keyboardNavigationEventFilter_chord_rejects_next
      [some ⟨true⟩, some ⟨false⟩] 0 ⟨true⟩ rfl rfl rfl).1,
    (keyboardNavigationEventFilter_chord_rejects_next
      [some ⟨true⟩, some ⟨false⟩] 0 ⟨true⟩ rfl rfl rfl).2 (by decide)⟩
